import Mathlib

/-!
Verification of the PySXB protocol session layer (src/src/PySXB/pysxb.py).

The Python module is embedded shallowly: pure helpers (`decode`, `encode`,
`hardware_address`, the vector properties) become Lean functions on `Nat`;
the stateful serial operations (`sxb_at`, `sxb_command`, `sxb_write`,
`sxb_read`, `sxb_load`, `PySXB.__init__`) become functions from an explicit
transport environment (write outcomes, reply bytes, dispatch success) to a
result plus the list of transport effects they perform.  A raised Python
exception is modelled with `Except`; Python `None` returns are modelled with
`Option`.
-/

set_option maxHeartbeats 1000000
set_option maxRecDepth 8192

namespace PySXB

/-- Protocol constants, pysxb.py lines 12-19. -/
def AT : List Nat := [0x55, 0xAA]

def WRITE : Nat := 0x02

def READ : Nat := 0x03

def TIDE : Nat := 0x04

def EXEC : Nat := 0x05

def BLK_SIZE : Nat := 0x3E

def OK : Nat := 0xCC

/-- Loop body of `PySXB.decode` (lines 71-75): `return_val |= byte << i * 8`
iterated over the enumerated byte array. -/
def decodeAux : List Nat → Nat → Nat → Nat
  | [], _, return_val => return_val
  | byte :: rest, i, return_val => decodeAux rest (i + 1) (return_val ||| byte <<< (i * 8))

/-- `PySXB.decode` (lines 61-75): little-endian byte sequence to unsigned int. -/
def decode (byte_array : List Nat) : Nat :=
  decodeAux byte_array 0 0

/-- `PySXB.encode` (lines 77-91): 3-byte little-endian tuple when `address`,
else 2-byte. -/
def encode (number : Nat) (address : Bool := true) : List Nat :=
  if address then [number &&& 255, number >>> 8 &&& 255, number >>> 16 &&& 255]
  else [number &&& 255, number >>> 8 &&& 255]

/-- `PySXB.hardware_address` (lines 238-244):
`return self.hw_vector_base & 0xff00 | address & 0x00ff`. -/
def hardware_address (hw_vector_base : Nat) (address : Nat) : Nat :=
  hw_vector_base &&& 0xff00 ||| address &&& 0x00ff

/-- `PySXB.irq_vector` (lines 150-162). -/
def irq_vector (shadow_vector_base : Nat) (emulation : Bool) : Nat :=
  let address := shadow_vector_base + 10
  if emulation then address + 16 else address

/-- `PySXB.reset_vector` (lines 164-176). -/
def reset_vector (shadow_vector_base : Nat) (emulation : Bool) : Nat :=
  let address := shadow_vector_base + 8
  if emulation then address + 16 else address

/-- `PySXB.break_vector` (lines 190-202). -/
def break_vector (shadow_vector_base : Nat) (emulation : Bool) : Nat :=
  let address := shadow_vector_base + 2
  if emulation then address + 24 else address

/-! Helper lemmas about the bit operations used by the codec. -/

/-- Masking with 255 is reduction mod 256. -/
theorem and_255_eq_mod (x : Nat) : x &&& 255 = x % 256 := by
  have h := Nat.and_pow_two_sub_one_eq_mod x 8
  norm_num at h
  exact h

/-- Disjoint bitwise or is addition: the numeral-256 form of
`Nat.mul_add_lt_is_or`. -/
theorem or_mul_256 (a b : Nat) (hb : b < 256) : b ||| 256 * a = 256 * a + b := by
  have h := @Nat.mul_add_lt_is_or 8 b (by norm_num; exact hb) a
  norm_num at h
  rw [Nat.or_comm]
  exact h.symm

/-- Disjoint bitwise or is addition, 65536 form. -/
theorem or_mul_65536 (a b : Nat) (hb : b < 65536) : b ||| 65536 * a = 65536 * a + b := by
  have h := @Nat.mul_add_lt_is_or 16 b (by norm_num; exact hb) a
  norm_num at h
  rw [Nat.or_comm]
  exact h.symm

/-- Masking with 0xFF00 extracts bits 8-15 in place. -/
theorem and_ff00_eq (x : Nat) : x &&& 0xff00 = x / 256 % 256 * 256 := by
  have h1 : (0xff00 : Nat) = (2 ^ 8 - 1) <<< 8 := by decide
  have h2 : x / 256 % 256 * 256 = (x >>> 8 % 2 ^ 8) <<< 8 := by
    rw [Nat.shiftRight_eq_div_pow, Nat.shiftLeft_eq]
    norm_num
  rw [h1, h2]
  apply Nat.eq_of_testBit_eq
  intro i
  simp only [Nat.testBit_and, Nat.testBit_shiftLeft, Nat.testBit_two_pow_sub_one,
    Nat.testBit_mod_two_pow, Nat.testBit_shiftRight]
  by_cases h8 : 8 ≤ i
  · have hi : 8 + (i - 8) = i := by omega
    simp [h8, hi, Bool.and_comm]
  · simp [h8]

/-- Unfolded form of the decode loop on a three-byte list. -/
theorem decode_three (a b c : Nat) :
    decode [a, b, c] = (a ||| b <<< 8) ||| c <<< 16 := by
  simp [decode, decodeAux]

/-- Unfolded form of the decode loop on a two-byte list. -/
theorem decode_two (a b : Nat) : decode [a, b] = a ||| b <<< 8 := by
  simp [decode, decodeAux]

/-- Round trip of the three-byte address encoding. -/
theorem decode_encode_addr {v : Nat} (h : v < 2 ^ 24) : decode (encode v true) = v := by
  have hb0 : v &&& 255 = v % 256 := and_255_eq_mod v
  have hb1 : v >>> 8 &&& 255 = v / 256 % 256 := by
    rw [and_255_eq_mod, Nat.shiftRight_eq_div_pow]
  have hb2 : v >>> 16 &&& 255 = v / 65536 % 256 := by
    rw [and_255_eq_mod, Nat.shiftRight_eq_div_pow]
  have hm0 : v % 256 < 256 := Nat.mod_lt _ (by norm_num)
  have hm1 : v / 256 % 256 < 256 := Nat.mod_lt _ (by norm_num)
  show decode [v &&& 255, v >>> 8 &&& 255, v >>> 16 &&& 255] = v
  rw [decode_three, hb0, hb1, hb2, Nat.shiftLeft_eq, Nat.shiftLeft_eq]
  norm_num
  rw [Nat.mul_comm (v / 256 % 256) 256, Nat.mul_comm (v / 65536 % 256) 65536]
  rw [or_mul_256 _ _ hm0]
  rw [or_mul_65536 _ _ (by omega)]
  omega

/-- Round trip of the two-byte length encoding. -/
theorem decode_encode_len {v : Nat} (h : v < 2 ^ 16) : decode (encode v false) = v := by
  have hb0 : v &&& 255 = v % 256 := and_255_eq_mod v
  have hb1 : v >>> 8 &&& 255 = v / 256 % 256 := by
    rw [and_255_eq_mod, Nat.shiftRight_eq_div_pow]
  have hm0 : v % 256 < 256 := Nat.mod_lt _ (by norm_num)
  show decode [v &&& 255, v >>> 8 &&& 255] = v
  rw [decode_two, hb0, hb1, Nat.shiftLeft_eq]
  norm_num
  rw [Nat.mul_comm (v / 256 % 256) 256]
  rw [or_mul_256 _ _ hm0]
  omega

/-- C6: for every integer v in [0, 2^24), decode(encode(v, true)) == v, and
for every v in [0, 2^16), decode(encode(v, false)) == v. -/
theorem C6_codec_roundtrip (v : Nat) :
    (v < 2 ^ 24 → decode (encode v true) = v) ∧
    (v < 2 ^ 16 → decode (encode v false) = v) :=
  ⟨fun h => decode_encode_addr h, fun h => decode_encode_len h⟩

/-- Witness for C6 at v = 0xABCDEF and v = 0xABCD. -/
theorem C6_codec_roundtrip_witness :
    (0xABCDEF < 2 ^ 24 ∧ decode (encode 0xABCDEF true) = 0xABCDEF) ∧
    (0xABCD < 2 ^ 16 ∧ decode (encode 0xABCD false) = 0xABCD) :=
  ⟨⟨by norm_num, (C6_codec_roundtrip 0xABCDEF).1 (by norm_num)⟩,
   ⟨by norm_num, (C6_codec_roundtrip 0xABCD).2 (by norm_num)⟩⟩

/-- C1 counterexample: with hw_vector_base = 0xAB1234 the code returns
0x1256 (bits 8-15 of the base, not its top byte), so the claimed result
0xAB56 is wrong. -/
theorem C1_hardware_address_counterexample :
    hardware_address 0xAB1234 0x56 ≠ 0xAB56 := by decide

/-- C1 amended: hardware_address combines bits 8-15 of hw_vector_base
(shifted back into place) with the low byte of the offset; concretely
hardware_address(0x56) with hw_vector_base = 0xAB1234 is 0x1256. -/
theorem C1_hardware_address_amended :
    (∀ base off : Nat, hardware_address base off = base / 256 % 256 * 256 + off % 256) ∧
    hardware_address 0xAB1234 0x56 = 0x1256 := by
  constructor
  · intro base off
    show base &&& 0xff00 ||| off &&& 0x00ff = base / 256 % 256 * 256 + off % 256
    have h255 : off &&& 0x00ff = off % 256 := and_255_eq_mod off
    rw [and_ff00_eq, h255, Nat.mul_comm (base / 256 % 256) 256]
    rw [Nat.or_comm, or_mul_256 _ _ (Nat.mod_lt _ (by norm_num))]
  · decide

/-! Transport model.  A serial write either reports a byte count or raises
`serial.SerialTimeoutException`; a serial read returns the bytes obtained.
Raised Python exceptions are `Except.error`, Python `None` is `Option.none`. -/

/-- Outcome of one call to `serial.Serial.write`. -/
inductive WriteOutcome
  | count (n : Nat)
  | timeout
deriving DecidableEq

/-- Python exceptions that the module can raise or catch. -/
inductive PyExc
  | typeError
  | valueError
deriving DecidableEq

/-- Python truthiness of an optional integer argument: `None` and `0` are
falsy (the source tests `if address:` and `if length:`). -/
def truthy : Option Nat → Bool
  | none => false
  | some n => n != 0

/-- `PySXB.sxb_at` (lines 246-256), parametrised by the transport outcome of
writing the AT magic and by the bytes `self.read(1)` returns.  `ord` of a
reply that is not exactly one byte raises `TypeError`, which the source does
not catch (only `SerialTimeoutException` is); a zero-count write falls off
the function returning `None`. -/
def sxb_at (at_write : WriteOutcome) (reply : List Nat) : Except PyExc (Option Bool) :=
  match at_write with
  | .timeout => .ok (some false)
  | .count n =>
    if n != 0 then
      match reply with
      | [b] => .ok (some (b == OK))
      | _ => .error .typeError
    else .ok none

/-- Transport environment of one `sxb_command` call: outcome and reply of
the AT probe, and the outcome of writing the command packet itself. -/
structure CmdEnv where
  at_write : WriteOutcome
  at_reply : List Nat
  cmd_write : WriteOutcome
deriving DecidableEq

/-- The command packet built by `sxb_command` (lines 271-279): the opcode
byte, then the 3-byte address encoding if `address` is truthy, then the
2-byte length encoding if `length` is truthy. -/
def command_packet (cmd_code : Nat) (address length : Option Nat) : List Nat :=
  [cmd_code]
    ++ (if truthy address then encode (address.getD 0) true else [])
    ++ (if truthy length then encode (length.getD 0) false else [])

/-- `PySXB.sxb_command` (lines 258-289).  First component: the Python return
value (or raised exception propagated out of `sxb_at`); second component:
the command packets handed to the transport (the AT magic bytes of the probe
are not command packets and are not listed). -/
def sxb_command (env : CmdEnv) (cmd_code : Nat) (address length : Option Nat) :
    Except PyExc (Option Bool) × List (List Nat) :=
  match sxb_at env.at_write env.at_reply with
  | .error e => (.error e, [])
  | .ok (some true) =>
    let command := command_packet cmd_code address length
    match env.cmd_write with
    | .count n => (.ok (some (n > 0 : Bool)), [command])
    | .timeout => (.ok none, [command])
  | .ok _ => (.ok none, [])

/-- Everything `sxb_write` does to the transport, plus its return value. -/
structure WriteEffect where
  dispatch : Option (Nat × Nat)
  writes : List (List Nat)
  ret : Nat
deriving DecidableEq

/-- Chunk loop of `sxb_write` (lines 311-316): `for blk in range(0, length,
BLK_SIZE)`, writing `data[blk:blk+BLK_SIZE]` while `blk + BLK_SIZE < length`
and `data[blk:length]` on the final stride.  The loop is embedded with a
fuel argument (`data.length` steps always suffice, since `blk` grows by
`BLK_SIZE` per step). -/
def write_loop : Nat → List Nat → Nat → List (List Nat)
  | 0, _, _ => []
  | fuel + 1, data, blk =>
    if blk < data.length then
      (if blk + BLK_SIZE < data.length then (data.drop blk).take BLK_SIZE
       else data.drop blk) :: write_loop fuel data (blk + BLK_SIZE)
    else []

/-- `PySXB.sxb_write` (lines 291-318), parametrised by whether the WRITE
command dispatch succeeds.  With a falsy address the data is written raw in
one call with no dispatch; otherwise the WRITE command is dispatched with
the address and `len(data)`, and on success the data goes out in one call
when shorter than `BLK_SIZE`, else through the chunk loop (returning 0). -/
def sxb_write (dispatch_ok : Bool) (data : List Nat) (address : Option Nat) : WriteEffect :=
  if truthy address then
    if dispatch_ok then
      if data.length < BLK_SIZE then
        { dispatch := some (address.getD 0, data.length), writes := [data], ret := data.length }
      else
        { dispatch := some (address.getD 0, data.length),
          writes := write_loop data.length data 0, ret := 0 }
    else
      { dispatch := some (address.getD 0, data.length), writes := [], ret := 0 }
  else
    { dispatch := none, writes := [data], ret := data.length }

/-- Everything `sxb_read` does to the transport. -/
structure ReadEffect where
  dispatch : Option (Nat × Nat)
  reads : List Nat
deriving DecidableEq

/-- Chunk loop of `sxb_read` (lines 374-378): the sizes of the successive
`self.read` calls. -/
def read_loop : Nat → Nat → Nat → List Nat
  | 0, _, _ => []
  | fuel + 1, length, blk =>
    if blk < length then
      (if blk + BLK_SIZE < length then BLK_SIZE else length - blk)
        :: read_loop fuel length (blk + BLK_SIZE)
    else []

/-- `PySXB.sxb_read` (lines 355-380): with a truthy address a READ command
is dispatched first (its result ignored); then one read of `length` bytes
when below `BLK_SIZE`, else the chunked reads. -/
def sxb_read (length : Nat) (address : Option Nat) : ReadEffect :=
  { dispatch := if truthy address then some (address.getD 0, length) else none
    reads := if length < BLK_SIZE then [length] else read_loop length length 0 }

/-! Properties of the chunk loop. -/

/-- The loop is inert once `blk` has passed the end of the data. -/
theorem write_loop_nil (fuel : Nat) (data : List Nat) (blk : Nat)
    (h : data.length ≤ blk) : write_loop fuel data blk = [] := by
  cases fuel with
  | zero => rfl
  | succ fuel => simp [write_loop, Nat.not_lt_of_le h]

/-- Concatenating the chunks recovers the data from `blk` on. -/
theorem write_loop_flatten (fuel : Nat) : ∀ (data : List Nat) (blk : Nat),
    data.length ≤ blk + fuel → (write_loop fuel data blk).flatten = data.drop blk := by
  induction fuel with
  | zero =>
    intro data blk h
    simp only [Nat.add_zero] at h
    simp [write_loop, List.drop_eq_nil_of_le h]
  | succ fuel ih =>
    intro data blk h
    have hBS : BLK_SIZE = 62 := rfl
    by_cases hb : blk < data.length
    · simp only [write_loop, if_pos hb, List.flatten_cons]
      by_cases hfull : blk + BLK_SIZE < data.length
      · rw [if_pos hfull, ih data (blk + BLK_SIZE) (by omega)]
        rw [← List.drop_drop BLK_SIZE blk data]
        exact List.take_append_drop BLK_SIZE (data.drop blk)
      · rw [if_neg hfull, write_loop_nil fuel data (blk + BLK_SIZE) (by omega)]
        simp
    · have hge : data.length ≤ blk := by omega
      simp [write_loop, hb, List.drop_eq_nil_of_le hge]

/-- The loop performs exactly the ceiling number of writes. -/
theorem write_loop_length (fuel : Nat) : ∀ (data : List Nat) (blk : Nat),
    data.length ≤ blk + fuel →
    (write_loop fuel data blk).length = (data.length - blk + (BLK_SIZE - 1)) / BLK_SIZE := by
  induction fuel with
  | zero =>
    intro data blk h
    simp only [Nat.add_zero] at h
    show ([] : List (List Nat)).length = _
    simp only [List.length_nil]
    show 0 = (data.length - blk + (62 - 1)) / 62
    omega
  | succ fuel ih =>
    intro data blk h
    have hBS : BLK_SIZE = 62 := rfl
    by_cases hb : blk < data.length
    · simp only [write_loop, if_pos hb, List.length_cons]
      rw [ih data (blk + BLK_SIZE) (by omega)]
      show (data.length - (blk + 62) + (62 - 1)) / 62 + 1 = (data.length - blk + (62 - 1)) / 62
      omega
    · rw [write_loop_nil (fuel + 1) data blk (by omega)]
      show 0 = (data.length - blk + (62 - 1)) / 62
      omega

/-- The final write of the loop carries the remainder
`L - blk - BLK_SIZE * ((L - blk - 1) / BLK_SIZE)` bytes. -/
theorem write_loop_last (fuel : Nat) : ∀ (data : List Nat) (blk : Nat),
    data.length ≤ blk + fuel → blk < data.length →
    ((write_loop fuel data blk).map List.length).getLast? =
      some (data.length - blk - BLK_SIZE * ((data.length - blk - 1) / BLK_SIZE)) := by
  induction fuel with
  | zero =>
    intro data blk h hb
    omega
  | succ fuel ih =>
    intro data blk h hb
    have hBS : BLK_SIZE = 62 := rfl
    by_cases hfull : blk + BLK_SIZE < data.length
    · have hrest := ih data (blk + BLK_SIZE) (by omega) (by omega)
      simp only [write_loop, if_pos hb, if_pos hfull, List.map_cons]
      cases hw : (write_loop fuel data (blk + BLK_SIZE)).map List.length with
      | nil => rw [hw] at hrest; simp at hrest
      | cons x xs =>
        rw [hw] at hrest
        rw [List.getLast?_cons_cons, hrest]
        show some (data.length - (blk + 62) - 62 * ((data.length - (blk + 62) - 1) / 62)) =
          some (data.length - blk - 62 * ((data.length - blk - 1) / 62))
        have hlt : blk + 62 < data.length := hfull
        congr 1
        omega
    · have hnil : write_loop fuel data (blk + BLK_SIZE) = [] :=
        write_loop_nil fuel data (blk + BLK_SIZE) (by omega)
      simp only [write_loop, if_pos hb, if_neg hfull, hnil, List.map_cons, List.map_nil]
      rw [List.length_drop]
      have hle : data.length ≤ blk + 62 := by omega
      show some (data.length - blk) =
        some (data.length - blk - 62 * ((data.length - blk - 1) / 62))
      congr 1
      omega

/-- C3: after a successful WRITE dispatch with a truthy address, the chunked
write issues exactly ceil(L/62) transport writes for a payload of length
L >= 1, the final write carries L - 62*floor((L-1)/62) bytes, and the
writes concatenate back to the payload in order with no overlap or gap. -/
theorem C3_write_chunking (data : List Nat) (a : Nat) (h1 : data ≠ []) (h2 : a ≠ 0) :
    ((sxb_write true data (some a)).writes).length = (data.length + 61) / 62 ∧
    (((sxb_write true data (some a)).writes).map List.length).getLast? =
      some (data.length - 62 * ((data.length - 1) / 62)) ∧
    ((sxb_write true data (some a)).writes).flatten = data := by
  have hL : 0 < data.length := List.length_pos.mpr h1
  have hta : truthy (some a) = true := by simp [truthy, h2]
  by_cases hlt : data.length < BLK_SIZE
  · have hw : (sxb_write true data (some a)).writes = [data] := by
      simp [sxb_write, hta, hlt]
    have hblk : data.length < 62 := hlt
    rw [hw]
    refine ⟨?_, ?_, by simp⟩
    · show 1 = (data.length + 61) / 62
      omega
    · show some data.length = some (data.length - 62 * ((data.length - 1) / 62))
      congr 1
      omega
  · have hw : (sxb_write true data (some a)).writes = write_loop data.length data 0 := by
      simp [sxb_write, hta, hlt]
    rw [hw]
    refine ⟨?_, ?_, ?_⟩
    · rw [write_loop_length data.length data 0 (by omega)]
      show (data.length - 0 + (62 - 1)) / 62 = (data.length + 61) / 62
      omega
    · rw [write_loop_last data.length data 0 (by omega) hL]
      show some (data.length - 0 - 62 * ((data.length - 0 - 1) / 62)) = _
      congr 1
    · rw [write_loop_flatten data.length data 0 (by omega)]
      simp

/-- Witness for C3: a 130-byte payload goes out in three writes of 62, 62
and 6 bytes. -/
theorem C3_write_chunking_witness :
    List.replicate 130 (9 : Nat) ≠ [] ∧ (0x7000 : Nat) ≠ 0 ∧
    ((sxb_write true (List.replicate 130 (9 : Nat)) (some 0x7000)).writes).length =
      (130 + 61) / 62 ∧
    (((sxb_write true (List.replicate 130 (9 : Nat)) (some 0x7000)).writes).map
      List.length).getLast? = some (130 - 62 * ((130 - 1) / 62)) ∧
    ((sxb_write true (List.replicate 130 (9 : Nat)) (some 0x7000)).writes).flatten =
      List.replicate 130 (9 : Nat) := by
  refine ⟨by decide, by decide, ?_⟩
  have h := C3_write_chunking (List.replicate 130 (9 : Nat)) 0x7000 (by decide) (by decide)
  simpa using h

/-- C5: when the AT probe reports an unready board (False from a
write-timeout, or the None fall-through of a zero-count write), no command
packet is written to the transport and the dispatch returns the None failure
result without raising. -/
theorem C5_no_packet_on_handshake_failure (env : CmdEnv) (cmd_code : Nat)
    (address length : Option Nat)
    (h : sxb_at env.at_write env.at_reply = .ok (some false) ∨
         sxb_at env.at_write env.at_reply = .ok none) :
    sxb_command env cmd_code address length = (.ok none, []) := by
  rcases h with h | h <;> simp [sxb_command, h]

/-- Witness for C5: a timed-out AT write makes the probe report False, and
the WRITE dispatch then sends nothing and reports failure. -/
theorem C5_no_packet_on_handshake_failure_witness :
    (sxb_at WriteOutcome.timeout [] = .ok (some false) ∨
     sxb_at WriteOutcome.timeout [] = .ok none) ∧
    sxb_command ⟨WriteOutcome.timeout, [], WriteOutcome.count 5⟩ WRITE (some 0x1000) (some 4) =
      (.ok none, []) :=
  ⟨Or.inl rfl,
   C5_no_packet_on_handshake_failure ⟨WriteOutcome.timeout, [], WriteOutcome.count 5⟩
     WRITE (some 0x1000) (some 4) (Or.inl rfl)⟩

/-- C4 counterexample: with a successful two-byte AT write but an empty
reply (a read timeout), `ord` of the empty bytes raises an uncaught
TypeError instead of returning a failure value. -/
theorem C4_at_probe_counterexample :
    sxb_at (WriteOutcome.count 2) [] = .error PyExc.typeError := rfl

/-- C4 amended: the probe returns True iff the AT write reported a nonzero
count and exactly one reply byte equal to 0xCC was read; a write-timeout
returns False; but when the write succeeds and the reply is not exactly one
byte the probe raises TypeError rather than returning a failure value. -/
theorem C4_at_probe_amended (w : WriteOutcome) (reply : List Nat) :
    (sxb_at w reply = .ok (some true) ↔ (∃ n, w = .count (n + 1)) ∧ reply = [OK]) ∧
    (sxb_at w reply = .error PyExc.typeError ↔
      (∃ n, w = .count (n + 1)) ∧ reply.length ≠ 1) ∧
    sxb_at WriteOutcome.timeout reply = .ok (some false) ∧
    sxb_at (WriteOutcome.count 0) reply = .ok none := by
  refine ⟨?_, ?_, rfl, rfl⟩
  · cases w with
    | timeout => simp [sxb_at]
    | count n =>
      cases n with
      | zero => simp [sxb_at]
      | succ n =>
        cases reply with
        | nil => simp [sxb_at]
        | cons b rest =>
          cases rest with
          | nil => simp [sxb_at, OK]
          | cons c rest => simp [sxb_at]
  · cases w with
    | timeout => simp [sxb_at]
    | count n =>
      cases n with
      | zero => simp [sxb_at]
      | succ n =>
        cases reply with
        | nil => simp [sxb_at]
        | cons b rest =>
          cases rest with
          | nil => simp [sxb_at]
          | cons c rest => simp [sxb_at]

/-- C9: address 0 behaves exactly like an absent address: the write goes out
raw in a single transport call with no WRITE dispatch, and the read performs
no READ dispatch; the effects with address 0 and with no address are
identical. -/
theorem C9_zero_address (dispatch_ok : Bool) (data : List Nat) (length : Nat) :
    sxb_write dispatch_ok data (some 0) = sxb_write dispatch_ok data none ∧
    (sxb_write dispatch_ok data (some 0)).dispatch = none ∧
    (sxb_write dispatch_ok data (some 0)).writes = [data] ∧
    sxb_read length (some 0) = sxb_read length none ∧
    (sxb_read length (some 0)).dispatch = none := by
  refine ⟨?_, ?_, ?_, ?_, ?_⟩ <;> simp [sxb_write, sxb_read, truthy]

/-! Execute: the processor-state tuple of `sxb_execute` (lines 320-353).
In the source, `a_reg`, `x_reg` and `y_reg` are reassigned to the 2-tuples
returned by `encode(..., False)` and then placed into `processor_state`
UNFLATTENED, so the tuple has 13 elements, three of which are themselves
tuples.  `serial.Serial.write` converts its argument with `bytes(bytearray(seq))`,
which raises `TypeError` on a nested tuple; `sxb_write` does not catch it. -/

/-- A Python value appearing as an element of the processor-state tuple:
either an int or a nested tuple of ints. -/
inductive PyVal
  | int (n : Nat)
  | tuple (elems : List Nat)
deriving DecidableEq

/-- The `processor_state` tuple assembled by `sxb_execute` (lines 339-350),
element for element. -/
def processor_state (a_reg x_reg y_reg address processor_flags : Nat)
    (emulation : Bool) : List PyVal :=
  let a := encode a_reg false
  let x := encode x_reg false
  let y := encode y_reg false
  let addr := encode address true
  [ PyVal.tuple a, PyVal.tuple x, PyVal.tuple y,
    PyVal.int (addr.getD 0 0), PyVal.int (addr.getD 1 0),
    PyVal.int 0, PyVal.int 0,
    PyVal.int 255, PyVal.int 1,
    PyVal.int processor_flags,
    PyVal.int (if emulation then 1 else 0),
    PyVal.int 0,
    PyVal.int 0 ]

/-- pyserial's `to_bytes` conversion applied to a sequence of Python values:
`some` of the byte list when every element is an int, `none` (a raised
TypeError) as soon as a nested tuple is hit. -/
def to_bytes : List PyVal → Option (List Nat)
  | [] => some []
  | PyVal.int n :: rest => (to_bytes rest).map (n :: ·)
  | PyVal.tuple _ :: _ => none

/-- Flattening of the state tuple (what the block would contain had the
register pairs been spliced in): nested tuples contribute their elements. -/
def flatten_state (l : List PyVal) : List Nat :=
  (l.map fun v => match v with | PyVal.int n => [n] | PyVal.tuple t => t).flatten

/-- C2, evaluated at the failing input A=1, X=2, Y=3, address=0x8000 (with
the default flags 0x76 and emulation on): the assembled tuple has 13
elements, not 12 bytes; serialising it raises TypeError (`to_bytes` is
`none`), so it is never written to mon_ram and EXEC is never reached; and
even its flattening is 16 bytes, of which only offsets 0-11 match the
claimed layout. -/
theorem C2_execute_state_block :
    (processor_state 1 2 3 0x8000 0x76 true).length = 13 ∧
    to_bytes (processor_state 1 2 3 0x8000 0x76 true) = none ∧
    flatten_state (processor_state 1 2 3 0x8000 0x76 true) =
      [1, 0, 2, 0, 3, 0, 0, 0x80, 0, 0, 255, 1, 0x76, 1, 0, 0] ∧
    (flatten_state (processor_state 1 2 3 0x8000 0x76 true)).length ≠ 12 := by
  refine ⟨rfl, rfl, by decide, by decide⟩

/-! Image loader `sxb_load` (lines 382-406). -/

/-- `PySXB.sxb_load` given the bytes of the image file: checks the 0x5A
flag byte, decodes the little-endian address (bytes 1-3) and length (bytes
4-5), and hands `rom_data[7:7+length]` to `sxb_write` at that address;
any other flag byte raises ValueError.  First component: the returned
(address, length) pair or the raised exception; second component: the
payload writes `sxb_write` makes (given the WRITE dispatch outcome). -/
def sxb_load (dispatch_ok : Bool) (rom_data : List Nat) :
    Except PyExc (Nat × Nat) × WriteEffect :=
  if rom_data.getD 0 0 == 0x5a then
    let code_address := decode ((rom_data.drop 1).take 3)
    let code_length := decode ((rom_data.drop 4).take 2)
    let code := (rom_data.drop 7).take code_length
    (.ok (code_address, code_length), sxb_write dispatch_ok code (some code_address))
  else (.error .valueError, { dispatch := none, writes := [], ret := 0 })

/-- A successfully dispatched write always puts the whole payload on the
transport, whatever the address argument. -/
theorem sxb_write_flatten (data : List Nat) (address : Option Nat) :
    (sxb_write true data address).writes.flatten = data := by
  by_cases hta : truthy address = true
  · by_cases hlt : data.length < BLK_SIZE
    · have hw : (sxb_write true data address).writes = [data] := by
        simp [sxb_write, hta, hlt]
      rw [hw]
      simp
    · have hw : (sxb_write true data address).writes = write_loop data.length data 0 := by
        simp [sxb_write, hta, hlt]
      rw [hw, write_loop_flatten data.length data 0 (by omega)]
      simp
  · have hw : (sxb_write true data address).writes = [data] := by
      simp [sxb_write, hta]
    rw [hw]
    simp

/-- A write called with a nonzero address always dispatches the WRITE
command carrying that address and the payload length, whatever the
transport then does. -/
theorem sxb_write_dispatch (dispatch_ok : Bool) (data : List Nat) (a : Nat) (ha : a ≠ 0) :
    (sxb_write dispatch_ok data (some a)).dispatch = some (a, data.length) := by
  have hta : truthy (some a) = true := by simp [truthy, ha]
  cases dispatch_ok with
  | false => simp [sxb_write, hta]
  | true => by_cases hlt : data.length < BLK_SIZE <;> simp [sxb_write, hta, hlt]

/-- C7: loading raises a format error and performs no payload write iff the
first byte differs from 0x5A; with the 0x5A flag it returns the address
decoded from bytes 1-3 and the length from bytes 4-5, the payload writes
(with the WRITE dispatch succeeding) concatenate to exactly bytes
7..7+length, and for a nonzero decoded address the WRITE command is
dispatched with exactly that address and the payload length; concretely the
image 5A 01 00 00 02 00 00 DE AD yields address 1, length 2, a WRITE
dispatch carrying (1, 2) and a single write of exactly the two bytes
DE AD. -/
theorem C7_load (rom_data : List Nat) (dispatch_ok : Bool) (h : rom_data ≠ []) :
    ((sxb_load dispatch_ok rom_data).1 = .error PyExc.valueError ∧
        (sxb_load dispatch_ok rom_data).2.writes = [] ∧
        (sxb_load dispatch_ok rom_data).2.dispatch = none ↔ rom_data.head h ≠ 0x5a) ∧
    (rom_data.head h = 0x5a →
      (sxb_load dispatch_ok rom_data).1 =
        .ok (decode ((rom_data.drop 1).take 3), decode ((rom_data.drop 4).take 2)) ∧
      (sxb_load true rom_data).2.writes.flatten =
        (rom_data.drop 7).take (decode ((rom_data.drop 4).take 2)) ∧
      (decode ((rom_data.drop 1).take 3) ≠ 0 →
        (sxb_load dispatch_ok rom_data).2.dispatch =
          some (decode ((rom_data.drop 1).take 3),
            ((rom_data.drop 7).take (decode ((rom_data.drop 4).take 2))).length))) ∧
    sxb_load true [0x5a, 0x01, 0, 0, 0x02, 0, 0, 0xDE, 0xAD] =
      (.ok (1, 2), { dispatch := some (1, 2), writes := [[0xDE, 0xAD]], ret := 2 }) := by
  obtain ⟨b, rest, rfl⟩ : ∃ b rest, rom_data = b :: rest := by
    cases rom_data with
    | nil => exact absurd rfl h
    | cons b rest => exact ⟨b, rest, rfl⟩
  have hhead : (b :: rest).head h = b := rfl
  have hget : (b :: rest).getD 0 0 = b := rfl
  refine ⟨?_, ?_, rfl⟩
  · by_cases hb : b = 0x5a
    · subst hb
      simp [sxb_load]
    · rw [hhead]
      simp [sxb_load, hget, hb]
  · intro hb5a
    rw [hhead] at hb5a
    subst hb5a
    have hload : ∀ d : Bool, (sxb_load d (0x5a :: rest)).2 =
        sxb_write d ((rest.drop 6).take (decode ((rest.drop 3).take 2)))
          (some (decode (rest.take 3))) := fun d => rfl
    refine ⟨by simp [sxb_load], ?_, ?_⟩
    · rw [hload true]
      exact sxb_write_flatten _ _
    · intro hz
      rw [hload dispatch_ok]
      exact sxb_write_dispatch dispatch_ok _ _ hz

/-- Witness for C7 at the spec's concrete image. -/
theorem C7_load_witness :
    ([0x5a, 0x01, 0, 0, 0x02, 0, 0, 0xDE, 0xAD] : List Nat) ≠ [] ∧
    ([0x5a, 0x01, 0, 0, 0x02, 0, 0, 0xDE, 0xAD] : List Nat).head (by decide) = 0x5a ∧
    decode (([0x5a, 0x01, 0, 0, 0x02, 0, 0, 0xDE, 0xAD] : List Nat).drop 1 |>.take 3) ≠ 0 ∧
    (sxb_load true [0x5a, 0x01, 0, 0, 0x02, 0, 0, 0xDE, 0xAD]).1 =
      .ok (decode (([0x5a, 0x01, 0, 0, 0x02, 0, 0, 0xDE, 0xAD] : List Nat).drop 1 |>.take 3),
           decode (([0x5a, 0x01, 0, 0, 0x02, 0, 0, 0xDE, 0xAD] : List Nat).drop 4 |>.take 2)) ∧
    (sxb_load true [0x5a, 0x01, 0, 0, 0x02, 0, 0, 0xDE, 0xAD]).2.writes.flatten =
      (([0x5a, 0x01, 0, 0, 0x02, 0, 0, 0xDE, 0xAD] : List Nat).drop 7).take
        (decode (([0x5a, 0x01, 0, 0, 0x02, 0, 0, 0xDE, 0xAD] : List Nat).drop 4 |>.take 2)) ∧
    (sxb_load true [0x5a, 0x01, 0, 0, 0x02, 0, 0, 0xDE, 0xAD]).2.dispatch =
      some (decode (([0x5a, 0x01, 0, 0, 0x02, 0, 0, 0xDE, 0xAD] : List Nat).drop 1 |>.take 3),
        ((([0x5a, 0x01, 0, 0, 0x02, 0, 0, 0xDE, 0xAD] : List Nat).drop 7).take
          (decode (([0x5a, 0x01, 0, 0, 0x02, 0, 0, 0xDE, 0xAD] : List Nat).drop 4 |>.take 2))).length) :=
  ⟨by decide, rfl, by decide,
   ((C7_load [0x5a, 0x01, 0, 0, 0x02, 0, 0, 0xDE, 0xAD] true (by decide)).2.1 rfl).1,
   ((C7_load [0x5a, 0x01, 0, 0, 0x02, 0, 0, 0xDE, 0xAD] true (by decide)).2.1 rfl).2.1,
   ((C7_load [0x5a, 0x01, 0, 0, 0x02, 0, 0, 0xDE, 0xAD] true (by decide)).2.1 rfl).2.2 (by decide)⟩

/-! Session construction (`PySXB.__init__`, lines 35-59). -/

/-- The Board Model fields assigned by the constructor. -/
structure BoardModel where
  mon_ram : Nat
  cpu_type : Nat
  board_id : Nat
  mon_rom : Nat
  shadow_vector_base : Nat
  hw_io : Nat
  hw_vector_base : Nat
  emulation : Bool
deriving DecidableEq

/-- `PySXB.__init__` after opening the port: `tide_data` starts as 29 zero
bytes and is replaced by `self.read(29)` only when the TIDE dispatch
returns a truthy result; the fields are then decoded whenever `tide_data`
is nonempty (`none` models the fields staying unassigned).  The two `if`s
on `cpu_type` force emulation on when it is 0, else take the caller's
`emulation_mode`. -/
def init_board (tide_ok : Bool) (tide_reply : List Nat) (emulation_mode : Bool) :
    Option BoardModel :=
  let tide_data := if tide_ok then tide_reply else List.replicate 29 0
  if tide_data.length ≠ 0 then
    some { mon_ram := decode (tide_data.take 3)
           cpu_type := tide_data.getD 3 0
           board_id := tide_data.getD 4 0
           mon_rom := decode ((tide_data.drop 8).take 3)
           shadow_vector_base := decode ((tide_data.drop 11).take 3)
           hw_io := decode ((tide_data.drop 14).take 3)
           hw_vector_base := decode ((tide_data.drop 17).take 3)
           emulation := if tide_data.getD 3 0 != 0 then emulation_mode else true }
  else none

/-- C10: when the TIDE dispatch fails, the constructor still assigns the
Board Model, decoded from the untouched 29-byte zero buffer: every address
field and cpu_type and board_id are 0, and emulation is forced true no
matter what emulation_mode the caller passed; nothing is raised or
reported. -/
theorem C10_init_tide_failure (tide_reply : List Nat) (emulation_mode : Bool) :
    init_board false tide_reply emulation_mode =
      some { mon_ram := 0, cpu_type := 0, board_id := 0, mon_rom := 0,
             shadow_vector_base := 0, hw_io := 0, hw_vector_base := 0,
             emulation := true } := rfl

/-- C8: with emulation on, reset/irq/break vectors are the shadow base plus
8+16, 10+16 and 2+24 respectively; concretely for base 0x2000 they are
0x2018, 0x201A and 0x201A. -/
theorem C8_vectors (base : Nat) :
    reset_vector base true = base + 8 + 16 ∧
    irq_vector base true = base + 10 + 16 ∧
    break_vector base true = base + 2 + 24 ∧
    reset_vector 0x2000 true = 0x2018 ∧
    irq_vector 0x2000 true = 0x201A ∧
    break_vector 0x2000 true = 0x201A := by
  refine ⟨?_, ?_, ?_, by decide, by decide, by decide⟩ <;> simp [reset_vector, irq_vector, break_vector]

end PySXB
